import Mathlib

/-!
Verification of the StudyMate session controller (the `App` component in
`src/unnamed/part_000`, with the data model of `src/types.ts`).

The React component state is embedded as an explicit `AppState` record and
each event handler becomes a pure state-transformation function. External
asynchronous collaborators (`getAnswer`, `generateQuiz`, `fileToBase64`,
and the PDF processing hook) are modelled by passing their outcome as an
`Except String _` argument: `Except.ok` is a resolved promise, and
`Except.error msg` a rejection whose `Error.message` is `msg` (with the
JavaScript falsy empty message mapped to `""`).
-/

/-- Role of a conversation turn, from `src/types.ts` (`'user' | 'model'`). -/
inductive Role where
  | user
  | model
deriving DecidableEq, Repr

/-- ConversationTurn from `src/types.ts`. -/
structure ConversationTurn where
  role : Role
  content : String
deriving DecidableEq, Repr

/-- ImagePayload from `src/types.ts`. -/
structure ImagePayload where
  data : String
  mimeType : String
  name : String
deriving DecidableEq, Repr

/-- QuizQuestion from `src/types.ts`. -/
structure QuizQuestion where
  question : String
  options : List String
  answer : String
deriving DecidableEq, Repr

/-- PdfDocument from `src/types.ts`; the browser `File` handle is
represented by its name, which is all the component reads from it. -/
structure PdfDocument where
  fileName : String
  text : String
deriving DecidableEq, Repr

/-- Profile from `src/types.ts`. -/
structure Profile where
  name : String
  title : String
  picture : Option String
deriving DecidableEq, Repr

/-- Browser file passed to `handleImageSelect`: its `name` and MIME `type`. -/
structure File where
  name : String
  type : String
deriving DecidableEq, Repr

/-- Complete state of the `App` component: the `useState` cells plus the
state exposed by the `usePdfProcessor` hook (`processedDocs`,
`isProcessing`, `error`). -/
structure AppState where
  processedDocs : List PdfDocument
  isPdfProcessing : Bool
  pdfError : Option String
  conversation : List ConversationTurn
  isGenerating : Bool
  apiError : String
  image : Option ImagePayload
  quiz : Option (List QuizQuestion)
  isGeneratingQuiz : Bool
  isAnnotatorOpen : Bool
  isQuizModalOpen : Bool
  isProfileModalOpen : Bool
  profile : Profile
deriving DecidableEq, Repr

/-- Initial component state: every `useState` initialiser of `App`. -/
def initialState : AppState where
  processedDocs := []
  isPdfProcessing := false
  pdfError := none
  conversation := []
  isGenerating := false
  apiError := ""
  image := none
  quiz := none
  isGeneratingQuiz := false
  isAnnotatorOpen := false
  isQuizModalOpen := false
  isProfileModalOpen := false
  profile := { name := "Alex Johnson", title := "Student", picture := none }

/-- Derived signal `isLoading = isPdfProcessing || isGenerating || isGeneratingQuiz`. -/
def isLoading (s : AppState) : Bool :=
  s.isPdfProcessing || s.isGenerating || s.isGeneratingQuiz

/-- Derived signal `error = pdfError || apiError` with JavaScript truthiness:
a `null` or empty `pdfError` falls through to `apiError`. -/
def error (s : AppState) : String :=
  match s.pdfError with
  | none => s.apiError
  | some e => if e = "" then s.apiError else e

/-- JavaScript `String.prototype.trim()`: strips leading and trailing
whitespace. (Defined over the character list so that it reduces in the
kernel; Lean's own `String.trim` agrees but is built on well-founded
`Substring` auxiliaries.) -/
def jsTrim (s : String) : String :=
  ⟨((s.data.dropWhile Char.isWhitespace).reverse.dropWhile Char.isWhitespace).reverse⟩

/-- JavaScript `String.prototype.startsWith(p)`. -/
def jsStartsWith (s p : String) : Bool :=
  p.data.isPrefixOf s.data

/-- Input guard of `handleQuestionSubmit`: `!question.trim() && !image`. -/
def askGuardFails (question : String) (image : Option ImagePayload) : Bool :=
  jsTrim question == "" && image.isNone

/-- The `handleQuestionSubmit` handler. `result` is the outcome of the
awaited `getAnswer` call. On the guard it returns unchanged; otherwise it
appends the user turn, sets the generating flag, clears `apiError`, then
on success appends the model turn and on failure stores the error message
(`error.message || 'An unknown error occurred while generating the answer.'`);
the finally clause resets `isGenerating`. -/
def handleQuestionSubmit (s : AppState) (question : String)
    (result : Except String String) : AppState :=
  if askGuardFails question s.image then s
  else
    let afterUser : AppState :=
      { s with conversation := s.conversation ++ [{ role := .user, content := question }],
               isGenerating := true, apiError := "" }
    match result with
    | .ok generatedAnswer =>
        { afterUser with
            conversation := afterUser.conversation ++
              [{ role := .model, content := generatedAnswer }],
            isGenerating := false }
    | .error msg =>
        { afterUser with
            apiError :=
              if msg = "" then "An unknown error occurred while generating the answer."
              else msg,
            isGenerating := false }

/-- The `handleImageSelect` handler. `encoded` is the outcome of the awaited
`fileToBase64` call (only consulted when the MIME check passes). -/
def handleImageSelect (s : AppState) (file : File)
    (encoded : Except String String) : AppState :=
  if ¬ jsStartsWith file.type "image/" then
    { s with apiError := "Please select a valid image file." }
  else
    let cleared : AppState := { s with apiError := "" }
    match encoded with
    | .ok base64Data =>
        { cleared with
            image := some { data := base64Data, mimeType := file.type, name := file.name } }
    | .error _ =>
        { cleared with apiError := "Failed to load the image. Please try again." }

/-- The `handleAnnotateComplete` handler. -/
def handleAnnotateComplete (s : AppState) (newImagePayload : ImagePayload) : AppState :=
  { s with image := some newImagePayload, isAnnotatorOpen := false }

/-- The `handleGenerateQuiz` handler. `result` is the outcome of the awaited
`generateQuiz` call on the combined document text. -/
def handleGenerateQuiz (s : AppState)
    (result : Except String (List QuizQuestion)) : AppState :=
  if s.processedDocs.length = 0 then s
  else
    let started : AppState :=
      { s with isGeneratingQuiz := true, apiError := "", quiz := none }
    match result with
    | .ok questions =>
        { started with quiz := some questions, isGeneratingQuiz := false }
    | .error msg =>
        { started with
            apiError :=
              if msg = "" then "An unknown error occurred while generating the quiz."
              else msg,
            isGeneratingQuiz := false }

/-- The `handleClearSession` handler. -/
def handleClearSession (s : AppState) : AppState :=
  { s with processedDocs := [], conversation := [], apiError := "", pdfError := none,
           image := none, quiz := none, isQuizModalOpen := false }

/-- The `handleProfileSave` handler. -/
def handleProfileSave (s : AppState) (newProfile : Profile) : AppState :=
  { s with profile := newProfile, isProfileModalOpen := false }

/-- Modelled from the spec: the per-file loop of the `usePdfProcessor` hook
(`hooks/usePdfProcessor`, not in the sources); spec 4.1 says the batch
"for each file attempts text extraction; on success adds a Document record;
on failure records a single session-level error and halts further processing
of that batch (partial results from files already processed before the
failure are preserved)". Each batch entry is a file name paired with its
extraction outcome. -/
def processBatch : List PdfDocument → List (String × Except String String) →
    List PdfDocument × Option String
  | docs, [] => (docs, none)
  | docs, (name, Except.ok text) :: rest =>
      processBatch (docs ++ [{ fileName := name, text := text }]) rest
  | docs, (_, Except.error msg) :: _ => (docs, some msg)

/-- Modelled from the spec: `processPdfs` of the `usePdfProcessor` hook
(not in the sources). It runs the batch over the current documents, stores
the resulting documents and error, and ends with its busy flag lowered
(the caller awaits its completion). -/
def processPdfs (s : AppState)
    (results : List (String × Except String String)) : AppState :=
  let outcome := processBatch s.processedDocs results
  { s with processedDocs := outcome.1, pdfError := outcome.2, isPdfProcessing := false }

/-- The `handleFileChange` handler: `if (files && files.length > 0)` it
clears the session and then awaits `processPdfs(files)`. -/
def handleFileChange (s : AppState)
    (files : Option (List (String × Except String String))) : AppState :=
  match files with
  | none => s
  | some fs => if fs.length > 0 then processPdfs (handleClearSession s) fs else s

/-- Session Controller operations, one constructor per event handler of
`App`, each carrying the handler arguments and the modelled outcome of any
external call it awaits. -/
inductive Op where
  | ask (question : String) (result : Except String String)
  | genQuiz (result : Except String (List QuizQuestion))
  | imageSelect (file : File) (encoded : Except String String)
  | annotate (newImagePayload : ImagePayload)
  | profileSave (newProfile : Profile)
  | clearSession
  | fileChange (files : Option (List (String × Except String String)))

/-- Dispatch an operation to its handler. -/
def applyOp (s : AppState) : Op → AppState
  | .ask question result => handleQuestionSubmit s question result
  | .genQuiz result => handleGenerateQuiz s result
  | .imageSelect file encoded => handleImageSelect s file encoded
  | .annotate newImagePayload => handleAnnotateComplete s newImagePayload
  | .profileSave newProfile => handleProfileSave s newProfile
  | .clearSession => handleClearSession s
  | .fileChange files => handleFileChange s files

/-- Sample image payload used in concrete witness states. -/
def sampleImage : ImagePayload :=
  { data := "QUJD", mimeType := "image/png", name := "pic.png" }

/-- A concrete non-trivial session state used in witnesses. -/
def dirtyState : AppState :=
  { initialState with
      processedDocs := [{ fileName := "old.pdf", text := "old text" }],
      conversation := [{ role := .user, content := "hi" },
                       { role := .model, content := "hello" }],
      apiError := "boom",
      pdfError := some "bad pdf",
      image := some sampleImage,
      quiz := some [{ question := "Q1", options := ["a", "b"], answer := "a" }],
      isQuizModalOpen := true }

/-- C1: whenever the input guard of Ask passes and the answer service call
succeeds with answer `a`, the conversation grows by exactly the two turns
`{user, q}` then `{model, a}` appended at the end. -/
theorem ask_success_appends_two (s : AppState) (question answer : String)
    (h : askGuardFails question s.image = false) :
    (handleQuestionSubmit s question (Except.ok answer)).conversation =
      s.conversation ++ [{ role := .user, content := question },
                         { role := .model, content := answer }] := by
  simp [handleQuestionSubmit, h]

/-- Witness for C1: the spec's photosynthesis example on the empty initial
session yields exactly the two expected turns. -/
theorem ask_success_appends_two_witness :
    askGuardFails "What is photosynthesis?" initialState.image = false ∧
    (handleQuestionSubmit initialState "What is photosynthesis?"
        (Except.ok "Photosynthesis converts light to energy.")).conversation =
      initialState.conversation ++
        [{ role := .user, content := "What is photosynthesis?" },
         { role := .model, content := "Photosynthesis converts light to energy." }] :=
  ⟨by decide,
   ask_success_appends_two initialState "What is photosynthesis?"
     "Photosynthesis converts light to energy." (by decide)⟩

/-- C2: whenever the input guard of Ask passes and the answer service call
fails, only the user turn is appended, `apiError` becomes non-empty (the
failure's message, or the generic fallback when the message is empty), and
the generating flag is false. -/
theorem ask_failure_appends_user_sets_error (s : AppState) (question msg : String)
    (h : askGuardFails question s.image = false) :
    (handleQuestionSubmit s question (Except.error msg)).conversation =
        s.conversation ++ [{ role := .user, content := question }] ∧
    (handleQuestionSubmit s question (Except.error msg)).apiError ≠ "" ∧
    (msg ≠ "" → (handleQuestionSubmit s question (Except.error msg)).apiError = msg) ∧
    (msg = "" → (handleQuestionSubmit s question (Except.error msg)).apiError =
        "An unknown error occurred while generating the answer.") ∧
    (handleQuestionSubmit s question (Except.error msg)).isGenerating = false := by
  refine ⟨by simp [handleQuestionSubmit, h], ?_, ?_, ?_, by simp [handleQuestionSubmit, h]⟩
  · by_cases hm : msg = "" <;> simp [handleQuestionSubmit, h, hm]
  · intro hm
    simp [handleQuestionSubmit, h, hm]
  · intro hm
    simp [handleQuestionSubmit, h, hm]

/-- Witness for C2 at a concrete failing call. -/
theorem ask_failure_appends_user_sets_error_witness :
    askGuardFails "Why is the sky blue?" initialState.image = false ∧
    ((handleQuestionSubmit initialState "Why is the sky blue?"
        (Except.error "network down")).conversation =
      initialState.conversation ++ [{ role := .user, content := "Why is the sky blue?" }] ∧
    (handleQuestionSubmit initialState "Why is the sky blue?"
        (Except.error "network down")).apiError ≠ "" ∧
    ("network down" ≠ "" → (handleQuestionSubmit initialState "Why is the sky blue?"
        (Except.error "network down")).apiError = "network down") ∧
    ("network down" = "" → (handleQuestionSubmit initialState "Why is the sky blue?"
        (Except.error "network down")).apiError =
        "An unknown error occurred while generating the answer.") ∧
    (handleQuestionSubmit initialState "Why is the sky blue?"
        (Except.error "network down")).isGenerating = false) :=
  ⟨by decide,
   ask_failure_appends_user_sets_error initialState "Why is the sky blue?"
     "network down" (by decide)⟩

/-- C3: submitting a question whose trimmed text is empty while no image is
attached leaves the whole state unchanged, whatever the service outcome
would have been. -/
theorem ask_empty_no_image_noop (s : AppState) (question : String)
    (result : Except String String) (h1 : jsTrim question = "")
    (h2 : s.image = none) :
    handleQuestionSubmit s question result = s := by
  have hg : askGuardFails question s.image = true := by
    simp [askGuardFails, h1, h2]
  simp [handleQuestionSubmit, hg]

/-- Witness for C3 on a whitespace-only question. -/
theorem ask_empty_no_image_noop_witness :
    jsTrim "   " = "" ∧ initialState.image = none ∧
    handleQuestionSubmit initialState "   " (Except.ok "unused answer") = initialState :=
  ⟨by decide, rfl,
   ask_empty_no_image_noop initialState "   " (Except.ok "unused answer")
     (by decide) rfl⟩

/-- C4: Clear Session empties the document list, the conversation, the
image, the quiz and both error channels, closes the quiz view, and is
idempotent. -/
theorem clear_session_resets_and_idempotent (s : AppState) :
    (handleClearSession s).processedDocs = [] ∧
    (handleClearSession s).conversation = [] ∧
    (handleClearSession s).image = none ∧
    (handleClearSession s).quiz = none ∧
    (handleClearSession s).apiError = "" ∧
    (handleClearSession s).pdfError = none ∧
    (handleClearSession s).isQuizModalOpen = false ∧
    handleClearSession (handleClearSession s) = handleClearSession s := by
  simp [handleClearSession]

/-- C5: the derived busy signal is true exactly when one of the three
activities is running, and the derived error signal equals the PDF error
when that channel is non-empty and the API error otherwise. -/
theorem derived_signals_spec (s : AppState) :
    (isLoading s = true ↔
      (s.isPdfProcessing = true ∨ s.isGenerating = true ∨ s.isGeneratingQuiz = true)) ∧
    error s = (if s.pdfError.getD "" ≠ "" then s.pdfError.getD "" else s.apiError) := by
  constructor
  · simp [isLoading, Bool.or_eq_true, or_assoc]
  · cases hp : s.pdfError with
    | none => simp [error, hp]
    | some e => by_cases he : e = "" <;> simp [error, hp, he]

/-- C6: Generate Quiz with no processed documents leaves the whole state
unchanged, whatever the service outcome would have been. -/
theorem quiz_noop_without_docs (s : AppState)
    (result : Except String (List QuizQuestion))
    (h : s.processedDocs = []) :
    handleGenerateQuiz s result = s := by
  simp [handleGenerateQuiz, h]

/-- Witness for C6 on the empty initial session. -/
theorem quiz_noop_without_docs_witness :
    initialState.processedDocs = [] ∧
    handleGenerateQuiz initialState
      (Except.ok [{ question := "Q", options := ["a"], answer := "a" }]) = initialState :=
  ⟨rfl,
   quiz_noop_without_docs initialState
     (Except.ok [{ question := "Q", options := ["a"], answer := "a" }]) rfl⟩

/-- C7: selecting a file whose MIME type does not begin with `image/`
leaves the image payload unchanged and sets the descriptive, non-empty
error message on `apiError`. -/
theorem image_select_invalid_mime (s : AppState) (file : File)
    (encoded : Except String String)
    (h : jsStartsWith file.type "image/" = false) :
    (handleImageSelect s file encoded).image = s.image ∧
    (handleImageSelect s file encoded).apiError = "Please select a valid image file." ∧
    (handleImageSelect s file encoded).apiError ≠ "" := by
  simp [handleImageSelect, h]

/-- Witness for C7 on a plain-text file. -/
theorem image_select_invalid_mime_witness :
    jsStartsWith "text/plain" "image/" = false ∧
    ((handleImageSelect dirtyState { name := "notes.txt", type := "text/plain" }
        (Except.ok "zzz")).image = dirtyState.image ∧
    (handleImageSelect dirtyState { name := "notes.txt", type := "text/plain" }
        (Except.ok "zzz")).apiError = "Please select a valid image file." ∧
    (handleImageSelect dirtyState { name := "notes.txt", type := "text/plain" }
        (Except.ok "zzz")).apiError ≠ "") :=
  ⟨by decide,
   image_select_invalid_mime dirtyState { name := "notes.txt", type := "text/plain" }
     (Except.ok "zzz") (by decide)⟩

/-- C8: Ask never changes the attached image, whether the guard passes or
not and whether the service call succeeds or fails. -/
theorem ask_preserves_image (s : AppState) (question : String)
    (result : Except String String) :
    (handleQuestionSubmit s question result).image = s.image := by
  by_cases hg : askGuardFails question s.image <;> cases result <;>
    simp [handleQuestionSubmit, hg]

/-- C9: the conversation is append-only: every Session Controller operation
either extends the prior conversation at the end, or — only Clear Session
and a file upload — empties it. -/
theorem conversation_append_only (s : AppState) (op : Op) :
    (∃ ts, (applyOp s op).conversation = s.conversation ++ ts) ∨
    ((op = Op.clearSession ∨ ∃ fs, op = Op.fileChange fs) ∧
      (applyOp s op).conversation = []) := by
  cases op with
  | ask question result =>
      left
      by_cases hg : askGuardFails question s.image
      · exact ⟨[], by simp [applyOp, handleQuestionSubmit, hg]⟩
      · cases result with
        | ok a =>
            exact ⟨[{ role := .user, content := question },
                    { role := .model, content := a }],
              by simp [applyOp, handleQuestionSubmit, hg]⟩
        | error m =>
            exact ⟨[{ role := .user, content := question }],
              by simp [applyOp, handleQuestionSubmit, hg]⟩
  | genQuiz result =>
      left
      refine ⟨[], ?_⟩
      by_cases h : s.processedDocs.length = 0 <;> cases result <;>
        simp [applyOp, handleGenerateQuiz, h]
  | imageSelect file encoded =>
      left
      refine ⟨[], ?_⟩
      by_cases h : jsStartsWith file.type "image/" <;> cases encoded <;>
        simp [applyOp, handleImageSelect, h]
  | annotate newImagePayload =>
      exact Or.inl ⟨[], by simp [applyOp, handleAnnotateComplete]⟩
  | profileSave newProfile =>
      exact Or.inl ⟨[], by simp [applyOp, handleProfileSave]⟩
  | clearSession =>
      exact Or.inr ⟨Or.inl rfl, by simp [applyOp, handleClearSession]⟩
  | fileChange files =>
      cases files with
      | none => exact Or.inl ⟨[], by simp [applyOp, handleFileChange]⟩
      | some fs =>
          by_cases h : fs.length > 0
          · exact Or.inr ⟨Or.inr ⟨some fs, rfl⟩,
              by simp [applyOp, handleFileChange, h, processPdfs, handleClearSession]⟩
          · exact Or.inl ⟨[], by simp [applyOp, handleFileChange, h]⟩

/-- C10: uploading a non-null, non-empty batch of files first clears the
whole session — conversation, image, quiz, API error channel, quiz view —
and the resulting documents and PDF error come from processing the new
batch against an empty document list, never merging with prior documents. -/
theorem upload_replaces_session (s : AppState)
    (fs : List (String × Except String String)) (h : fs ≠ []) :
    (handleFileChange s (some fs)).conversation = [] ∧
    (handleFileChange s (some fs)).image = none ∧
    (handleFileChange s (some fs)).quiz = none ∧
    (handleFileChange s (some fs)).apiError = "" ∧
    (handleFileChange s (some fs)).isQuizModalOpen = false ∧
    (handleFileChange s (some fs)).processedDocs = (processBatch [] fs).1 ∧
    (handleFileChange s (some fs)).pdfError = (processBatch [] fs).2 := by
  have hl : fs.length > 0 := List.length_pos.mpr h
  simp [handleFileChange, hl, processPdfs, handleClearSession]

/-- Witness for C10: uploading one successfully extracted file onto a dirty
session replaces everything. -/
theorem upload_replaces_session_witness :
    ([("new.pdf", Except.ok "new text")] :
        List (String × Except String String)) ≠ [] ∧
    ((handleFileChange dirtyState (some [("new.pdf", Except.ok "new text")])).conversation = [] ∧
    (handleFileChange dirtyState (some [("new.pdf", Except.ok "new text")])).image = none ∧
    (handleFileChange dirtyState (some [("new.pdf", Except.ok "new text")])).quiz = none ∧
    (handleFileChange dirtyState (some [("new.pdf", Except.ok "new text")])).apiError = "" ∧
    (handleFileChange dirtyState (some [("new.pdf", Except.ok "new text")])).isQuizModalOpen = false ∧
    (handleFileChange dirtyState (some [("new.pdf", Except.ok "new text")])).processedDocs =
      (processBatch [] [("new.pdf", Except.ok "new text")]).1 ∧
    (handleFileChange dirtyState (some [("new.pdf", Except.ok "new text")])).pdfError =
      (processBatch [] [("new.pdf", Except.ok "new text")]).2) :=
  ⟨List.cons_ne_nil _ _,
   upload_replaces_session dirtyState [("new.pdf", Except.ok "new text")]
     (List.cons_ne_nil _ _)⟩
